import Mathlib

/-!
Verification development for the tublisher-server pipeline (src/main.py).

The Python source is shallowly embedded: pure helpers (`extract_video_id`,
`clean_url`, the EPUB content assembly) become Lean functions; the effectful
request handler `create_book` becomes a function over an explicit environment
`Env` (the outcomes of every external collaborator: caption service, the two
generative backends, yt-dlp, the file system probes) and an explicit state
`FS` (the transient file set plus counters of outbound calls, used to observe
"no call was attempted").  Python truthiness on optional strings (`if x:`)
is modelled by `pyTruthyStr`.
-/

/-- Character class of the video-id regex `[0-9A-Za-z_-]`. -/
def isVidChar (c : Char) : Bool :=
  c.isAlphanum || c == '_' || c == '-'

/-- One attempted match of `(?:v=|\/)([0-9A-Za-z_-]{11}).*` anchored at the
head of the character list: the alternation `v=` / `/` followed by exactly 11
id characters (the trailing `.*` always succeeds and binds nothing). -/
def matchVidAt (s : List Char) : Option (List Char) :=
  match s with
  | 'v' :: '=' :: rest =>
      if (rest.take 11).length == 11 && (rest.take 11).all isVidChar then
        some (rest.take 11)
      else none
  | '/' :: rest =>
      if (rest.take 11).length == 11 && (rest.take 11).all isVidChar then
        some (rest.take 11)
      else none
  | _ => none

/-- `re.search` semantics: try `matchVidAt` at each successive start
position, returning the leftmost successful match group. -/
def searchVid : List Char → Option (List Char)
  | [] => none
  | c :: cs =>
      match matchVidAt (c :: cs) with
      | some t => some t
      | none => searchVid cs

/-- `extract_video_id` from src/main.py: regex search over the URL,
returning the captured 11-character group, `none` when no match exists. -/
def extract_video_id (url : String) : Option String :=
  (searchVid url.data).map (fun l => String.mk l)

/-- Python `str.replace("https;", "https://")` over characters: every
non-overlapping occurrence is replaced, scanning left to right. -/
def replaceHttpsSemi : List Char → List Char
  | 'h' :: 't' :: 't' :: 'p' :: 's' :: ';' :: rest =>
      'h' :: 't' :: 't' :: 'p' :: 's' :: ':' :: '/' :: '/' :: replaceHttpsSemi rest
  | c :: cs => c :: replaceHttpsSemi cs
  | [] => []

/-- Python `str.strip()`: drop leading and trailing whitespace. -/
def pyStrip (l : List Char) : List Char :=
  ((l.dropWhile Char.isWhitespace).reverse.dropWhile Char.isWhitespace).reverse

/-- URL cleanup at the top of `create_book`:
`request.url.replace("https;", "https://").strip()`. -/
def clean_url (u : String) : String :=
  String.mk (pyStrip (replaceHttpsSemi u.data))

/-- Python truthiness of an optional string: `None` and `""` are falsy. -/
def pyTruthyStr (o : Option String) : Bool :=
  match o with
  | none => false
  | some s => !s.isEmpty

/-- Outcomes of every external collaborator consumed by one request.
`Except String α` failures carry the stringified exception message `{e}`. -/
structure Env where
  deepseekKey : Option String
  googleKey : Option String
  metaTitle : Except Unit (Option String)
  transcript : Except Unit (List String)
  deepseekCall : String → String → Except String String
  ffmpegEnvVar : Option String
  ffmpegWhich : Option String
  isFile : String → Bool
  ytdlDownload : String → String → Except String String
  geminiUpload : String → Except String String
  geminiGenerate : String → String → Except String String
  geminiDelete : String → Except String Unit
  tempName : String
  nfc : String → String
  md : String → String

/-- Observable request state: the transient files on disk plus counters of
outbound calls (used to state "no call / no download was attempted"). -/
structure FS where
  files : List String
  downloads : Nat
  deepseekCalls : Nat
  uploads : Nat
  generates : Nat
deriving DecidableEq

/-- `get_video_title`: title from yt-dlp metadata, NFC-normalized; the
`info.get('title', 'YouTube Summary')` default; any exception is absorbed
into the fixed placeholder. -/
def get_video_title (nfc : String → String) (meta : Except Unit (Option String)) : String :=
  match meta with
  | Except.error _ => "YouTube Video Summary"
  | Except.ok t => nfc (t.getD "YouTube Summary")

/-- `os.path.dirname` (posix): everything up to the last `/`, with trailing
slashes stripped unless the head is empty or all slashes. -/
def dirname (p : String) : String :=
  let cs := p.data
  let tail := cs.reverse.takeWhile (fun c => c != '/')
  let head := cs.take (cs.length - tail.length)
  if head.isEmpty then String.mk head
  else if head.all (fun c => c == '/') then String.mk head
  else String.mk ((head.reverse.dropWhile (fun c => c == '/')).reverse)

/-- `os.environ.get("FFMPEG_PATH") or shutil.which("ffmpeg")`: the
configuration override is consulted first; an empty override falls through
to the system-path search (Python `or` on strings). -/
def resolve_ffmpeg (env : Env) : Option String :=
  match env.ffmpegEnvVar with
  | some s => if s.isEmpty then env.ffmpegWhich else some s
  | none => env.ffmpegWhich

/-- The `RuntimeError` message raised when ffmpeg cannot be located. -/
def ffmpegMissingMsg : String :=
  "ffmpeg/ffprobe를 찾을 수 없습니다. nixpacks.toml 또는 환경 변수를 확인해주세요."

/-- `download_audio`: resolve ffmpeg (fail before any download when
unresolved), compute the `ffmpeg_location` directory, then run yt-dlp with
`download=True`; success writes `/tmp/{id}.mp3` to transient storage. -/
def download_audio (env : Env) (url : String) (fs : FS) : Except String String × FS :=
  match resolve_ffmpeg env with
  | none => (Except.error ffmpegMissingMsg, fs)
  | some p =>
      if p.isEmpty then (Except.error ffmpegMissingMsg, fs)
      else
        let ffmpegDir := if env.isFile p then dirname p else p
        let fs1 : FS := { fs with downloads := fs.downloads + 1 }
        match env.ytdlDownload url ffmpegDir with
        | Except.error e => (Except.error e, fs1)
        | Except.ok vid =>
            let path := "/tmp/" ++ vid ++ ".mp3"
            (Except.ok path, { fs1 with files := path :: fs1.files })

/-- The fixed editorial instruction (`system_prompt` in `create_book`). -/
def system_prompt : String :=
  "\n    당신은 전문 도서 편집자입니다. 제공된 내용을 바탕으로 가독성 높은 \x27전자책 챕터\x27를 작성하세요.\n    [지침]\n    1. 구어체를 문어체로 변환하고, 소제목(Heading 2)을 적극 활용하여 구조화하세요.\n    2. 핵심 내용은 볼드체로 강조하고, 마크다운 형식으로 출력하세요.\n    3. 요약보다는 내용을 충실히 서술하여 지식을 전달하세요.\n    "

/-- Body of the audio-branch `try`: download, upload, generate, then the
remote delete, with the first raised exception `e` converted to the
`## 처리 실패` placeholder by the `except` handler.  Returns the content,
the value of `audio_path` at exit (set only once download succeeded), and
the state. -/
def audio_try (env : Env) (url : String) (fs : FS) : String × Option String × FS :=
  match download_audio env url fs with
  | (Except.error e, fs1) =>
      ("## 처리 실패\n\n오디오 분석 중 오류: " ++ e, none, fs1)
  | (Except.ok audioPath, fs1) =>
      let fs2 : FS := { fs1 with uploads := fs1.uploads + 1 }
      match env.geminiUpload audioPath with
      | Except.error e =>
          ("## 처리 실패\n\n오디오 분석 중 오류: " ++ e, some audioPath, fs2)
      | Except.ok handle =>
          let fs3 : FS := { fs2 with generates := fs2.generates + 1 }
          match env.geminiGenerate
              (system_prompt ++ "\n이 오디오 파일을 듣고 위 지침에 따라 책 원고를 작성해줘.") handle with
          | Except.error e =>
              ("## 처리 실패\n\n오디오 분석 중 오류: " ++ e, some audioPath, fs3)
          | Except.ok text =>
              match env.geminiDelete handle with
              | Except.ok _ => (text, some audioPath, fs3)
              | Except.error e =>
                  ("## 처리 실패\n\n오디오 분석 중 오류: " ++ e, some audioPath, fs3)

/-- The audio branch with its `finally` block:
`if audio_path and os.path.exists(audio_path): os.remove(audio_path)`. -/
def audio_branch (env : Env) (url : String) (fs : FS) : String × FS :=
  match audio_try env url fs with
  | (content, audioPath, fs1) =>
      match audioPath with
      | some p =>
          if p ∈ fs1.files then
            (content, { fs1 with files := fs1.files.filter (fun q => q != p) })
          else (content, fs1)
      | none => (content, fs1)

/-- The caption fetch (`YouTubeTranscriptApi.get_transcript` followed by
`" ".join(...)`): any exception leaves `transcript_text = None`. -/
def fetch_transcript (tr : Except Unit (List String)) : Option String :=
  match tr with
  | Except.error _ => none
  | Except.ok entries => some (String.intercalate " " entries)

/-- Section 2 of `create_book` ("AI 집필"): the `if transcript_text:`
branch between the DeepSeek text path (CASE A) and the Gemini audio path
(CASE B), including the credential short-circuits and the per-backend
placeholder-on-error containment. -/
def manuscript_branch (env : Env) (url : String) (fs : FS) : String × FS :=
  let transcriptText := fetch_transcript env.transcript
  if pyTruthyStr transcriptText then
    if !pyTruthyStr env.deepseekKey then
      ("## 설정 오류\n\nDeepSeek API Key가 없습니다.", fs)
    else
      let fs1 : FS := { fs with deepseekCalls := fs.deepseekCalls + 1 }
      match env.deepseekCall system_prompt
          ("다음 자막을 책으로 변환해줘:\n\n" ++ (transcriptText.getD "").take 15000) with
      | Except.ok content => (content, fs1)
      | Except.error e => ("## AI 오류\n\nDeepSeek 처리 중 오류 발생: " ++ e, fs1)
  else
    if !pyTruthyStr env.googleKey then
      ("## 설정 오류\n\n자막이 없는 영상은 Gemini가 필요합니다. GOOGLE_API_KEY를 설정해주세요.", fs)
    else
      audio_branch env url fs

/-- The chapter content f-string of `create_epub_file`, with `title`,
`html_content` and `video_id` spliced in at their interpolation points. -/
def chapter_html (title htmlContent videoId : String) : String :=
  "\n        <?xml version=\"1.0\" encoding=\"utf-8\"?>\n        <!DOCTYPE html PUBLIC \"-//W3C//DTD XHTML 1.1//EN\" \"http://www.w3.org/TR/xhtml11/DTD/xhtml11.dtd\">\n        <html xmlns=\"http://www.w3.org/1999/xhtml\" xml:lang=\"ko\">\n        <head>\n        <meta http-equiv=\"Content-Type\" content=\"text/html; charset=utf-8\" />\n        <title>" ++ title ++ "</title>\n        <style>\n            body \x7b \n                font-family: sans-serif; \n                line-height: 1.8; \n                color: #333; \n                word-break: keep-all; \n            \x7d\n            h1 \x7b color: #2c3e50; border-bottom: 2px solid #3498db; padding-bottom: 10px; \x7d\n            h2 \x7b color: #2980b9; margin-top: 30px; border-left: 5px solid #eee; padding-left: 10px; \x7d\n            strong \x7b color: #c0392b; background-color: #f9f9f9; padding: 2px 4px; border-radius: 4px; \x7d\n            hr \x7b border: 0; border-top: 1px solid #eee; margin: 20px 0; \x7d\n            .metadata \x7b color: gray; font-size: 0.8em; margin-top: 50px; text-align: center; border-top: 1px dashed #ccc; padding-top: 10px; \x7d\n        </style>\n        </head>\n        <body>\n            <h1>" ++ title ++ "</h1>\n            <div style=\"color:#7f8c8d; font-style:italic; margin-bottom:20px;\">\n                이 전자책은 AI가 영상을 분석하여 생성했습니다.\n            </div>\n            <hr/>\n            " ++ htmlContent ++ "\n            <div class=\"metadata\">\n                <p>Original Video: https://youtu.be/" ++ videoId ++ "</p>\n                <p>Published by Tublisher</p>\n            </div>\n        </body>\n        </html>\n    "

/-- The document built by `create_epub_file` before serialization: its
metadata fields and the single chapter. -/
structure EpubBook where
  identifier : String
  title : String
  language : String
  author : String
  chapterTitle : String
  chapterFileName : String
  chapterLang : String
  chapterContent : String
deriving DecidableEq

/-- Pure part of `create_epub_file`: NFC-normalize title and manuscript,
convert the manuscript markdown to HTML (`md`), and assemble the book.
`nfc` and `md` stand for `unicodedata.normalize('NFC', ·)` and
`markdown.markdown`, external collaborators of the source. -/
def epub_book (nfc md : String → String) (title contentMarkdown videoId : String) : EpubBook :=
  let title := nfc title
  let contentMarkdown := nfc contentMarkdown
  let htmlContent := md contentMarkdown
  { identifier := videoId
    title := title
    language := "ko"
    author := "Tublisher AI"
    chapterTitle := "Summary"
    chapterFileName := "chap_01.xhtml"
    chapterLang := "ko"
    chapterContent := chapter_html title htmlContent videoId }

/-- `remove_file`: delete the path if present, silently do nothing
otherwise (`if os.path.exists(path): os.remove(path)`). -/
def remove_file (files : List String) (path : String) : List String :=
  if path ∈ files then files.filter (fun q => q != path) else files

/-- An `HTTPException` raised by the handler. -/
structure HTTPErr where
  status : Nat
  detail : String
deriving DecidableEq

/-- The `FileResponse` returned on success. -/
structure BookResponse where
  path : String
  filename : String
  mediaType : String
deriving DecidableEq

/-- Full observable outcome of one `create_book` request. -/
structure CreateBookResult where
  response : Except HTTPErr BookResponse
  book : Option EpubBook
  fs : FS

/-- The `create_book` handler: clean the URL, extract the id (400 on
failure, before anything touches disk), resolve the title, run the
manuscript branch, assemble the EPUB into a fresh temporary file, and
answer with the `summary_<id>.epub` file response. -/
def create_book (env : Env) (reqUrl : String) (fs : FS) : CreateBookResult :=
  let cleanUrl := clean_url reqUrl
  match extract_video_id cleanUrl with
  | none =>
      { response := Except.error { status := 400, detail := "Invalid YouTube URL" }
        book := none
        fs := fs }
  | some videoId =>
      let videoTitle := get_video_title env.nfc env.metaTitle
      match manuscript_branch env cleanUrl fs with
      | (bookContent, fs1) =>
          let book := epub_book env.nfc env.md videoTitle bookContent videoId
          let epubPath := env.tempName
          let fs2 : FS := { fs1 with files := epubPath :: fs1.files }
          { response := Except.ok
              { path := epubPath
                filename := "summary_" ++ videoId ++ ".epub"
                mediaType := "application/epub+zip" }
            book := some book
            fs := fs2 }

/-- Leading consonant (choseong) jamo range U+1100–U+1112. -/
def isHangulL (c : Char) : Bool :=
  0x1100 ≤ c.toNat && c.toNat ≤ 0x1112

/-- Vowel (jungseong) jamo range U+1161–U+1175. -/
def isHangulV (c : Char) : Bool :=
  0x1161 ≤ c.toNat && c.toNat ≤ 0x1175

/-- Trailing consonant (jongseong) jamo range U+11A8–U+11C2. -/
def isHangulT (c : Char) : Bool :=
  0x11A8 ≤ c.toNat && c.toNat ≤ 0x11C2

/-- Canonical composition of an L, V, T jamo triple into one syllable. -/
def composeLVT (l v t : Char) : Char :=
  Char.ofNat (0xAC00 + (l.toNat - 0x1100) * 588 + (v.toNat - 0x1161) * 28 + (t.toNat - 0x11A7))

/-- Canonical composition of an L, V jamo pair into one syllable. -/
def composeLV (l v : Char) : Char :=
  Char.ofNat (0xAC00 + (l.toNat - 0x1100) * 588 + (v.toNat - 0x1161) * 28)

/-- Hangul-only canonical composition pass over a character list: a concrete
instance of an NFC normalizer, covering the syllable-block composition the
source comments call out (joining separated 자모음). -/
def hangulComposeList : List Char → List Char
  | l :: v :: t :: rest =>
      if isHangulL l && isHangulV v && isHangulT t then
        composeLVT l v t :: hangulComposeList rest
      else if isHangulL l && isHangulV v then
        composeLV l v :: hangulComposeList (t :: rest)
      else
        l :: hangulComposeList (v :: t :: rest)
  | l :: v :: [] =>
      if isHangulL l && isHangulV v then [composeLV l v] else l :: hangulComposeList [v]
  | l => l

/-- Hangul-only NFC on strings: a concrete normalizer standing in for
`unicodedata.normalize('NFC', ·)` on the Korean text the source cares
about, used to instantiate the abstract `nfc` parameter in witnesses. -/
def hangulNFC (s : String) : String :=
  String.mk (hangulComposeList s.data)

/-- "한" written as decomposed jamo U+1112 U+1161 U+11AB. -/
def titleDecomposed : String :=
  String.mk [Char.ofNat 0x1112, Char.ofNat 0x1161, Char.ofNat 0x11AB]

/-- "한" written as the composed syllable U+D55C. -/
def titleComposed : String :=
  String.mk [Char.ofNat 0xD55C]

/-- Empty initial request state. -/
def fs0 : FS :=
  { files := [], downloads := 0, deepseekCalls := 0, uploads := 0, generates := 0 }

/-- Fully healthy environment: every collaborator succeeds.  Witness
environments below perturb exactly the field a claim is about. -/
def env0 : Env :=
  { deepseekKey := some "ds-key"
    googleKey := some "g-key"
    metaTitle := Except.ok (some "Title")
    transcript := Except.ok ["hello", "world"]
    deepseekCall := fun _ _ => Except.ok "text manuscript"
    ffmpegEnvVar := none
    ffmpegWhich := some "/usr/bin/ffmpeg"
    isFile := fun _ => true
    ytdlDownload := fun _ _ => Except.ok "vid01234567"
    geminiUpload := fun _ => Except.ok "files/abc"
    geminiGenerate := fun _ _ => Except.ok "audio manuscript"
    geminiDelete := fun _ => Except.ok ()
    tempName := "/tmp/tmpbook.epub"
    nfc := fun s => s
    md := fun s => s }

/-- Caption fetch succeeds but yields zero fragments: `" ".join([]) == ""`;
no Gemini credential configured. -/
def envEmptyTranscript : Env :=
  { env0 with transcript := Except.ok [], googleKey := none }

/-- Caption fetch succeeds with a single empty fragment (joined text `""`);
Gemini key present but ffmpeg unresolvable. -/
def envEmptyFragment : Env :=
  { env0 with transcript := Except.ok [""], ffmpegWhich := none }

/-- Healthy audio-path environment whose remote delete fails. -/
def envDeleteFails : Env :=
  { env0 with transcript := Except.error ()
              geminiDelete := fun _ => Except.error "permission denied" }

/-- No captions, healthy Gemini, ffmpeg resolved only via the override. -/
def envOverride : Env :=
  { env0 with ffmpegEnvVar := some "/opt/ffmpeg/bin/ffmpeg" }

/-- No captions and no way to resolve ffmpeg. -/
def envNoFfmpeg : Env :=
  { env0 with transcript := Except.error (), ffmpegWhich := none }

/-- Captions present but the DeepSeek call fails with a quota error. -/
def envDeepseekDown : Env :=
  { env0 with deepseekCall := fun _ _ => Except.error "quota exceeded" }

/-- No captions and the Gemini generate call fails. -/
def envGeminiDown : Env :=
  { env0 with transcript := Except.error ()
              geminiGenerate := fun _ _ => Except.error "network unreachable" }

/-- Captions present, DeepSeek credential absent. -/
def envNoDeepseekKey : Env :=
  { env0 with deepseekKey := none }

/-- No captions, Gemini credential absent. -/
def envNoGoogleKey : Env :=
  { env0 with transcript := Except.error (), googleKey := none }

/-- The canonical test URL. -/
def goodUrl : String := "https://www.youtube.com/watch?v=dQw4w9WgXcQ"

theorem matchVidAt_some_shape {s t : List Char} (h : matchVidAt s = some t) :
    t.length = 11 ∧ t.all isVidChar = true := by
  unfold matchVidAt at h
  split at h
  · split at h
    · rename_i hc
      cases h
      simp only [Bool.and_eq_true, beq_iff_eq] at hc
      exact ⟨hc.1, hc.2⟩
    · exact absurd h (by simp)
  · split at h
    · rename_i hc
      cases h
      simp only [Bool.and_eq_true, beq_iff_eq] at hc
      exact ⟨hc.1, hc.2⟩
    · exact absurd h (by simp)
  · exact absurd h (by simp)

theorem searchVid_eq_none_iff (l : List Char) :
    searchVid l = none ↔ ∀ i, matchVidAt (l.drop i) = none := by
  induction l with
  | nil =>
      simp [searchVid, matchVidAt]
  | cons c cs ih =>
      constructor
      · intro h i
        unfold searchVid at h
        cases hm : matchVidAt (c :: cs) with
        | some t => rw [hm] at h; exact absurd h (by simp)
        | none =>
            rw [hm] at h
            cases i with
            | zero => simpa using hm
            | succ j => exact (ih.mp h) j
      · intro h
        unfold searchVid
        have h0 : matchVidAt (c :: cs) = none := by simpa using h 0
        rw [h0]
        exact ih.mpr (fun j => by simpa using h (j + 1))

theorem searchVid_some_leftmost {l t : List Char} (h : searchVid l = some t) :
    ∃ i, matchVidAt (l.drop i) = some t ∧ ∀ j, j < i → matchVidAt (l.drop j) = none := by
  induction l with
  | nil => exact absurd h (by simp [searchVid])
  | cons c cs ih =>
      unfold searchVid at h
      cases hm : matchVidAt (c :: cs) with
      | some u =>
          rw [hm] at h
          cases h
          exact ⟨0, by simpa using hm, fun j hj => absurd hj (by omega)⟩
      | none =>
          rw [hm] at h
          obtain ⟨i, hi, hmin⟩ := ih h
          refine ⟨i + 1, by simpa using hi, ?_⟩
          intro j hj
          cases j with
          | zero => simpa using hm
          | succ k =>
              have hk : k < i := by omega
              simpa using hmin k hk

/-- Claim C3: for every string, `extract_video_id` returns no identifier
exactly when no position of the string matches the pattern "an 11-character
alphanumeric/`-`/`_` token following `v=` or a path separator `/`"; and the
identifier it does return is exactly the token embedded at the leftmost
matching position (so for the supported URL shapes, which embed one such
token, it is that token), of length exactly 11, drawn from the id alphabet.
Purity holds by construction (it is a Lean function of the string alone). -/
theorem extract_video_id_correct (url : String) :
    (extract_video_id url = none ↔ ∀ i, matchVidAt (url.data.drop i) = none)
    ∧ (∀ t, extract_video_id url = some t →
        ∃ i, matchVidAt (url.data.drop i) = some t.data
          ∧ (∀ j, j < i → matchVidAt (url.data.drop j) = none)
          ∧ t.length = 11 ∧ t.data.all isVidChar = true) := by
  constructor
  · constructor
    · intro h
      have : searchVid url.data = none := by
        unfold extract_video_id at h
        cases hs : searchVid url.data with
        | none => rfl
        | some u => rw [hs] at h; exact absurd h (by simp)
      exact (searchVid_eq_none_iff url.data).mp this
    · intro h
      unfold extract_video_id
      rw [(searchVid_eq_none_iff url.data).mpr h]
      rfl
  · intro t ht
    unfold extract_video_id at ht
    cases hs : searchVid url.data with
    | none => rw [hs] at ht; exact absurd ht (by simp)
    | some u =>
        rw [hs] at ht
        obtain ⟨i, hi, hmin⟩ := searchVid_some_leftmost hs
        have hmk : (some (String.mk u) : Option String) = some t := ht
        have hu : t.data = u := by cases hmk; rfl
        have hsh := matchVidAt_some_shape hi
        refine ⟨i, by rw [hu]; exact hi, hmin, ?_, by rw [hu]; exact hsh.2⟩
        have hlen : t.length = t.data.length := rfl
        rw [hlen, hu]
        exact hsh.1

/-- Witness for C3 at the canonical URL: the pattern does match and the
extractor returns exactly the embedded identifier. -/
theorem extract_video_id_correct_witness :
    ∃ i, matchVidAt ((("https://www.youtube.com/watch?v=dQw4w9WgXcQ") : String).data.drop i)
        = some ("dQw4w9WgXcQ" : String).data
      ∧ (∀ j, j < i →
          matchVidAt ((("https://www.youtube.com/watch?v=dQw4w9WgXcQ") : String).data.drop j)
            = none)
      ∧ ("dQw4w9WgXcQ" : String).length = 11
      ∧ ("dQw4w9WgXcQ" : String).data.all isVidChar = true :=
  (extract_video_id_correct "https://www.youtube.com/watch?v=dQw4w9WgXcQ").2
    "dQw4w9WgXcQ" (by decide)

theorem string_append_ne_empty (a b : String) (ha : a.length ≠ 0) : a ++ b ≠ "" := by
  intro h
  have hl := congrArg String.length h
  rw [String.length_append] at hl
  have h0 : String.length "" = 0 := rfl
  omega

theorem create_book_ok {env : Env} {reqUrl : String} {fs : FS} {vid : String}
    (hvid : extract_video_id (clean_url reqUrl) = some vid) :
    (create_book env reqUrl fs).response = Except.ok
      { path := env.tempName
        filename := "summary_" ++ vid ++ ".epub"
        mediaType := "application/epub+zip" } := by
  simp only [create_book, hvid]

theorem create_book_content {env : Env} {reqUrl : String} {fs : FS} {vid : String}
    (hvid : extract_video_id (clean_url reqUrl) = some vid) :
    (create_book env reqUrl fs).book = some (epub_book env.nfc env.md
      (get_video_title env.nfc env.metaTitle)
      (manuscript_branch env (clean_url reqUrl) fs).1 vid) := by
  simp only [create_book, hvid]

theorem download_audio_error_state {env : Env} {url : String} {fs fs1 : FS} {e : String}
    (hd : download_audio env url fs = (Except.error e, fs1)) :
    fs1.files = fs.files ∧ fs1.deepseekCalls = fs.deepseekCalls
    ∧ fs1.uploads = fs.uploads ∧ fs1.generates = fs.generates := by
  simp only [download_audio] at hd
  split at hd
  · cases hd; exact ⟨rfl, rfl, rfl, rfl⟩
  · split at hd
    · cases hd; exact ⟨rfl, rfl, rfl, rfl⟩
    · split at hd
      · cases hd; exact ⟨rfl, rfl, rfl, rfl⟩
      · simp at hd

theorem download_audio_ok_state {env : Env} {url : String} {fs fs1 : FS} {q : String}
    (hd : download_audio env url fs = (Except.ok q, fs1)) :
    fs1.files = q :: fs.files ∧ fs1.deepseekCalls = fs.deepseekCalls
    ∧ fs1.uploads = fs.uploads ∧ fs1.generates = fs.generates := by
  simp only [download_audio] at hd
  split at hd
  · simp at hd
  · split at hd
    · simp at hd
    · split at hd
      · simp at hd
      · cases hd; exact ⟨rfl, rfl, rfl, rfl⟩

theorem audio_try_state (env : Env) (url : String) (fs : FS) :
    ((audio_try env url fs).2.1 = none ∧ (audio_try env url fs).2.2.files = fs.files
      ∨ ∃ q, (audio_try env url fs).2.1 = some q
          ∧ (audio_try env url fs).2.2.files = q :: fs.files)
    ∧ (audio_try env url fs).2.2.deepseekCalls = fs.deepseekCalls := by
  unfold audio_try
  split
  next e fs1 hd =>
      have h := download_audio_error_state hd
      exact ⟨Or.inl ⟨rfl, h.1⟩, h.2.1⟩
  next q fs1 hd =>
      have h := download_audio_ok_state hd
      split
      · exact ⟨Or.inr ⟨q, rfl, h.1⟩, h.2.1⟩
      · split
        · exact ⟨Or.inr ⟨q, rfl, h.1⟩, h.2.1⟩
        · split
          · exact ⟨Or.inr ⟨q, rfl, h.1⟩, h.2.1⟩
          · exact ⟨Or.inr ⟨q, rfl, h.1⟩, h.2.1⟩

theorem audio_branch_state (env : Env) (url : String) (fs : FS) :
    (∀ p, p ∉ fs.files → p ∉ (audio_branch env url fs).2.files)
    ∧ (audio_branch env url fs).2.deepseekCalls = fs.deepseekCalls := by
  have hs := audio_try_state env url fs
  unfold audio_branch
  split
  next c a fs1 hap =>
    rw [hap] at hs
    cases a with
    | none =>
        refine ⟨?_, hs.2⟩
        intro p hp hmem
        rcases hs.1 with ⟨_, hfiles⟩ | ⟨q, hq, _⟩
        · have hmem1 : p ∈ fs1.files := hmem
          have hf1 : fs1.files = fs.files := hfiles
          rw [hf1] at hmem1
          exact hp hmem1
        · exact absurd hq (by simp)
    | some a0 =>
        rcases hs.1 with ⟨hq, _⟩ | ⟨q, hq, hf⟩
        · exact absurd hq (by simp)
        · have hpq : a0 = q := by simpa using hq
          have hf1 : fs1.files = a0 :: fs.files := by rw [hpq]; exact hf
          have hqmem : a0 ∈ fs1.files := by
            rw [hf1]; exact List.mem_cons_self a0 fs.files
          dsimp only
          rw [if_pos hqmem]
          refine ⟨?_, hs.2⟩
          intro p hp hmem
          have hmem1 : p ∈ fs1.files.filter (fun r => r != a0) := hmem
          have hm := List.mem_filter.mp hmem1
          rw [hf1] at hm
          rcases List.mem_cons.mp hm.1 with h1 | h1
          · rw [h1] at hm
            simp at hm
          · exact hp h1

/-- Claim C6: after every audio-branch attempt, whether it ends in success
or in any failure (download, upload, generation, or remote-delete error),
the transient audio file for the request no longer exists on disk: any path
absent before the branch is absent after it, the branch's own artifact
included; and the cleanup operation is idempotent and silent when the file
is absent. -/
theorem audio_cleanup_guaranteed (env : Env) (url : String) (fs : FS) (p : String)
    (hp : p ∉ fs.files) :
    p ∉ (audio_branch env url fs).2.files
    ∧ (∀ files q, remove_file (remove_file files q) q = remove_file files q)
    ∧ (∀ files q, q ∉ files → remove_file files q = files) := by
  refine ⟨(audio_branch_state env url fs).1 p hp, ?_, ?_⟩
  · intro files q
    unfold remove_file
    by_cases hq : q ∈ files
    · rw [if_pos hq]
      have hnot : q ∉ files.filter (fun r => r != q) := by
        intro hmem
        have h := List.mem_filter.mp hmem
        simp at h
      rw [if_neg hnot]
    · rw [if_neg hq, if_neg hq]
  · intro files q hq
    unfold remove_file
    rw [if_neg hq]

/-- Witness for C6: a concrete full audio run (success including remote
delete) leaves no `/tmp/vid01234567.mp3` behind, and the cleanup facts. -/
theorem audio_cleanup_guaranteed_witness :
    "/tmp/vid01234567.mp3" ∉ (audio_branch env0 goodUrl fs0).2.files
    ∧ (∀ files q, remove_file (remove_file files q) q = remove_file files q)
    ∧ (∀ files q, q ∉ files → remove_file files q = files) :=
  audio_cleanup_guaranteed env0 goodUrl fs0 "/tmp/vid01234567.mp3" (by simp [fs0])

/-- Claim C7: when neither the FFMPEG_PATH override nor the system-path
search resolves the media-processing executable, `download_audio` fails
with the DependencyMissing error before any download attempt — the state
(file set and download counter) is returned untouched; and a non-empty
configuration override decides the resolution before the system search is
consulted. -/
theorem download_audio_dependency_missing (env : Env) (url : String) (fs : FS) :
    ((env.ffmpegEnvVar = none ∨ env.ffmpegEnvVar = some "") → env.ffmpegWhich = none →
        download_audio env url fs = (Except.error ffmpegMissingMsg, fs))
    ∧ (∀ p, env.ffmpegEnvVar = some p → p.isEmpty = false →
        resolve_ffmpeg env = some p) := by
  constructor
  · intro henv hwhich
    have hres : resolve_ffmpeg env = none := by
      unfold resolve_ffmpeg
      rcases henv with h | h <;> rw [h] <;> exact hwhich
    unfold download_audio
    rw [hres]
  · intro p hp hpe
    unfold resolve_ffmpeg
    rw [hp]
    simp [hpe]

/-- Witness for C7: with no override and no system ffmpeg the download
fails leaving the state untouched; with the override set it wins the
resolution even though a system ffmpeg also exists. -/
theorem download_audio_dependency_missing_witness :
    download_audio envNoFfmpeg goodUrl fs0 = (Except.error ffmpegMissingMsg, fs0)
    ∧ resolve_ffmpeg envOverride = some "/opt/ffmpeg/bin/ffmpeg" :=
  ⟨(download_audio_dependency_missing envNoFfmpeg goodUrl fs0).1 (Or.inl rfl) rfl,
   (download_audio_dependency_missing envOverride goodUrl fs0).2 "/opt/ffmpeg/bin/ffmpeg"
     rfl rfl⟩

theorem manuscript_branch_text_error {env : Env} {url : String} {fs : FS} {l : List String}
    {e : String}
    (htr : env.transcript = Except.ok l)
    (hne : (String.intercalate " " l).isEmpty = false)
    (hkey : pyTruthyStr env.deepseekKey = true)
    (hcall : env.deepseekCall system_prompt
        ("다음 자막을 책으로 변환해줘:\n\n" ++ (String.intercalate " " l).take 15000)
      = Except.error e) :
    manuscript_branch env url fs
      = ("## AI 오류\n\nDeepSeek 처리 중 오류 발생: " ++ e,
         { fs with deepseekCalls := fs.deepseekCalls + 1 }) := by
  unfold manuscript_branch
  rw [htr]
  simp only [fetch_transcript]
  have h1 : pyTruthyStr (some (String.intercalate " " l)) = true := by
    simp [pyTruthyStr, hne]
  rw [h1, hkey]
  simp only [Bool.not_true, Bool.false_eq_true, eq_self_iff_true, if_true, if_false,
    Option.getD_some, hcall]

theorem manuscript_branch_text_nokey {env : Env} {url : String} {fs : FS} {l : List String}
    (htr : env.transcript = Except.ok l)
    (hne : (String.intercalate " " l).isEmpty = false)
    (hkey : pyTruthyStr env.deepseekKey = false) :
    manuscript_branch env url fs = ("## 설정 오류\n\nDeepSeek API Key가 없습니다.", fs) := by
  unfold manuscript_branch
  rw [htr]
  simp only [fetch_transcript]
  have h1 : pyTruthyStr (some (String.intercalate " " l)) = true := by
    simp [pyTruthyStr, hne]
  rw [h1, hkey]
  simp

theorem manuscript_branch_text_ok {env : Env} {url : String} {fs : FS} {l : List String}
    {content : String}
    (htr : env.transcript = Except.ok l)
    (hne : (String.intercalate " " l).isEmpty = false)
    (hkey : pyTruthyStr env.deepseekKey = true)
    (hcall : env.deepseekCall system_prompt
        ("다음 자막을 책으로 변환해줘:\n\n" ++ (String.intercalate " " l).take 15000)
      = Except.ok content) :
    manuscript_branch env url fs
      = (content, { fs with deepseekCalls := fs.deepseekCalls + 1 }) := by
  unfold manuscript_branch
  rw [htr]
  simp only [fetch_transcript]
  have h1 : pyTruthyStr (some (String.intercalate " " l)) = true := by
    simp [pyTruthyStr, hne]
  rw [h1, hkey]
  simp only [Bool.not_true, Bool.false_eq_true, eq_self_iff_true, if_true, if_false,
    Option.getD_some, hcall]

theorem manuscript_branch_fallback {env : Env} {url : String} {fs : FS}
    (hft : pyTruthyStr (fetch_transcript env.transcript) = false) :
    manuscript_branch env url fs =
      if !pyTruthyStr env.googleKey then
        ("## 설정 오류\n\n자막이 없는 영상은 Gemini가 필요합니다. GOOGLE_API_KEY를 설정해주세요.", fs)
      else audio_branch env url fs := by
  unfold manuscript_branch
  simp only [hft, Bool.false_eq_true, if_false]

theorem audio_branch_content (env : Env) (url : String) (fs : FS) :
    (audio_branch env url fs).1 = (audio_try env url fs).1 := by
  unfold audio_branch
  split
  next c a fs1 hap =>
    rw [hap]
    cases a with
    | none => rfl
    | some a0 =>
        dsimp only
        split <;> rfl

theorem audio_try_generate_error {env : Env} {url : String} {fs : FS}
    {p handle e : String}
    (hdl : (download_audio env url fs).1 = Except.ok p)
    (hup : env.geminiUpload p = Except.ok handle)
    (hgen : env.geminiGenerate
        (system_prompt ++ "\n이 오디오 파일을 듣고 위 지침에 따라 책 원고를 작성해줘.") handle
      = Except.error e) :
    (audio_try env url fs).1 = "## 처리 실패\n\n오디오 분석 중 오류: " ++ e := by
  unfold audio_try
  split
  next e' fs1 hd =>
      rw [hd] at hdl
      simp at hdl
  next q fs1 hd =>
      have hq : q = p := by rw [hd] at hdl; simpa using hdl
      rw [hq, hup]
      dsimp only
      rw [hgen]

/-- Claim C1: for every request that reaches manuscript generation, an
error raised by the invoked generative backend call (DeepSeek on the text
path, Gemini generation on the audio path) is caught and converted into a
placeholder manuscript carrying the error message as body text, the request
still completes with the epub file response (it is not aborted), and
document assembly receives a non-empty string. -/
theorem backend_error_yields_placeholder (env : Env) (reqUrl : String) (fs : FS) (vid : String)
    (hvid : extract_video_id (clean_url reqUrl) = some vid) :
    (∀ l e, env.transcript = Except.ok l →
        (String.intercalate " " l).isEmpty = false →
        pyTruthyStr env.deepseekKey = true →
        env.deepseekCall system_prompt
            ("다음 자막을 책으로 변환해줘:\n\n" ++ (String.intercalate " " l).take 15000)
          = Except.error e →
        (manuscript_branch env (clean_url reqUrl) fs).1
            = "## AI 오류\n\nDeepSeek 처리 중 오류 발생: " ++ e
        ∧ (manuscript_branch env (clean_url reqUrl) fs).1 ≠ ""
        ∧ (create_book env reqUrl fs).response = Except.ok
            { path := env.tempName, filename := "summary_" ++ vid ++ ".epub",
              mediaType := "application/epub+zip" })
    ∧ (∀ p handle e,
        pyTruthyStr (fetch_transcript env.transcript) = false →
        pyTruthyStr env.googleKey = true →
        (download_audio env (clean_url reqUrl) fs).1 = Except.ok p →
        env.geminiUpload p = Except.ok handle →
        env.geminiGenerate
            (system_prompt ++ "\n이 오디오 파일을 듣고 위 지침에 따라 책 원고를 작성해줘.") handle
          = Except.error e →
        (manuscript_branch env (clean_url reqUrl) fs).1
            = "## 처리 실패\n\n오디오 분석 중 오류: " ++ e
        ∧ (manuscript_branch env (clean_url reqUrl) fs).1 ≠ ""
        ∧ (create_book env reqUrl fs).response = Except.ok
            { path := env.tempName, filename := "summary_" ++ vid ++ ".epub",
              mediaType := "application/epub+zip" }) := by
  constructor
  · intro l e htr hne hkey hcall
    have hmb : manuscript_branch env (clean_url reqUrl) fs
        = ("## AI 오류\n\nDeepSeek 처리 중 오류 발생: " ++ e,
           { fs with deepseekCalls := fs.deepseekCalls + 1 }) :=
      manuscript_branch_text_error htr hne hkey hcall
    refine ⟨?_, ?_, create_book_ok hvid⟩
    · rw [hmb]
    · rw [hmb]
      exact string_append_ne_empty _ _ (by decide)
  · intro p handle e hft hgoog hdl hup hgen
    have hc : (manuscript_branch env (clean_url reqUrl) fs).1
        = "## 처리 실패\n\n오디오 분석 중 오류: " ++ e := by
      have hfb : manuscript_branch env (clean_url reqUrl) fs =
          if !pyTruthyStr env.googleKey then
            ("## 설정 오류\n\n자막이 없는 영상은 Gemini가 필요합니다. GOOGLE_API_KEY를 설정해주세요.", fs)
          else audio_branch env (clean_url reqUrl) fs := manuscript_branch_fallback hft
      rw [hfb, hgoog]
      simp only [Bool.not_true, Bool.false_eq_true, if_false]
      rw [audio_branch_content]
      exact audio_try_generate_error hdl hup hgen
    refine ⟨hc, ?_, create_book_ok hvid⟩
    rw [hc]
    exact string_append_ne_empty _ _ (by decide)

/-- Witness for C1: a DeepSeek quota error and a Gemini network error each
become a visible placeholder, and both requests still complete. -/
theorem backend_error_yields_placeholder_witness :
    ((manuscript_branch envDeepseekDown (clean_url goodUrl) fs0).1
        = "## AI 오류\n\nDeepSeek 처리 중 오류 발생: " ++ "quota exceeded"
      ∧ (manuscript_branch envDeepseekDown (clean_url goodUrl) fs0).1 ≠ ""
      ∧ (create_book envDeepseekDown goodUrl fs0).response = Except.ok
          { path := envDeepseekDown.tempName,
            filename := "summary_" ++ "dQw4w9WgXcQ" ++ ".epub",
            mediaType := "application/epub+zip" })
    ∧ ((manuscript_branch envGeminiDown (clean_url goodUrl) fs0).1
        = "## 처리 실패\n\n오디오 분석 중 오류: " ++ "network unreachable"
      ∧ (manuscript_branch envGeminiDown (clean_url goodUrl) fs0).1 ≠ ""
      ∧ (create_book envGeminiDown goodUrl fs0).response = Except.ok
          { path := envGeminiDown.tempName,
            filename := "summary_" ++ "dQw4w9WgXcQ" ++ ".epub",
            mediaType := "application/epub+zip" }) :=
  ⟨(backend_error_yields_placeholder envDeepseekDown goodUrl fs0 "dQw4w9WgXcQ"
      (by decide)).1 ["hello", "world"] "quota exceeded" rfl (by decide) rfl rfl,
   (backend_error_yields_placeholder envGeminiDown goodUrl fs0 "dQw4w9WgXcQ"
      (by decide)).2 "/tmp/vid01234567.mp3" "files/abc" "network unreachable"
      rfl rfl rfl rfl rfl⟩

/-- Claim C8: when the credential required by the selected backend is
absent, the manuscript generator short-circuits to the missing-configuration
placeholder with no backend call attempted (the request state is returned
unchanged), and the request still yields the epub document response rather
than an HTTP error. -/
theorem missing_credential_placeholder (env : Env) (reqUrl : String) (fs : FS) (vid : String)
    (hvid : extract_video_id (clean_url reqUrl) = some vid) :
    (∀ l, env.transcript = Except.ok l →
        (String.intercalate " " l).isEmpty = false →
        pyTruthyStr env.deepseekKey = false →
        manuscript_branch env (clean_url reqUrl) fs
            = ("## 설정 오류\n\nDeepSeek API Key가 없습니다.", fs)
        ∧ (create_book env reqUrl fs).response = Except.ok
            { path := env.tempName, filename := "summary_" ++ vid ++ ".epub",
              mediaType := "application/epub+zip" })
    ∧ (pyTruthyStr (fetch_transcript env.transcript) = false →
        pyTruthyStr env.googleKey = false →
        manuscript_branch env (clean_url reqUrl) fs
            = ("## 설정 오류\n\n자막이 없는 영상은 Gemini가 필요합니다. GOOGLE_API_KEY를 설정해주세요.", fs)
        ∧ (create_book env reqUrl fs).response = Except.ok
            { path := env.tempName, filename := "summary_" ++ vid ++ ".epub",
              mediaType := "application/epub+zip" }) := by
  constructor
  · intro l htr hne hkey
    exact ⟨manuscript_branch_text_nokey htr hne hkey, create_book_ok hvid⟩
  · intro hft hgoog
    refine ⟨?_, create_book_ok hvid⟩
    have hfb : manuscript_branch env (clean_url reqUrl) fs =
        if !pyTruthyStr env.googleKey then
          ("## 설정 오류\n\n자막이 없는 영상은 Gemini가 필요합니다. GOOGLE_API_KEY를 설정해주세요.", fs)
        else audio_branch env (clean_url reqUrl) fs := manuscript_branch_fallback hft
    rw [hfb, hgoog]
    simp

/-- Witness for C8: a missing DeepSeek key on the caption path and a
missing Google key on the no-caption path each yield the configuration
placeholder and a completed document response. -/
theorem missing_credential_placeholder_witness :
    (manuscript_branch envNoDeepseekKey (clean_url goodUrl) fs0
        = ("## 설정 오류\n\nDeepSeek API Key가 없습니다.", fs0)
      ∧ (create_book envNoDeepseekKey goodUrl fs0).response = Except.ok
          { path := envNoDeepseekKey.tempName,
            filename := "summary_" ++ "dQw4w9WgXcQ" ++ ".epub",
            mediaType := "application/epub+zip" })
    ∧ (manuscript_branch envNoGoogleKey (clean_url goodUrl) fs0
        = ("## 설정 오류\n\n자막이 없는 영상은 Gemini가 필요합니다. GOOGLE_API_KEY를 설정해주세요.", fs0)
      ∧ (create_book envNoGoogleKey goodUrl fs0).response = Except.ok
          { path := envNoGoogleKey.tempName,
            filename := "summary_" ++ "dQw4w9WgXcQ" ++ ".epub",
            mediaType := "application/epub+zip" }) :=
  ⟨(missing_credential_placeholder envNoDeepseekKey goodUrl fs0 "dQw4w9WgXcQ" (by decide)).1
      ["hello", "world"] rfl (by decide) rfl,
   (missing_credential_placeholder envNoGoogleKey goodUrl fs0 "dQw4w9WgXcQ" (by decide)).2
      rfl rfl⟩

/-- Claim C4: a request whose URL cannot be parsed into a VideoId fails
with the client-fault status 400 and leaves the state untouched (no
temporary files are created); a request that succeeds returns the document
named `summary_<VideoId>.epub` with media type `application/epub+zip`. -/
theorem create_book_url_validation (env : Env) (reqUrl : String) (fs : FS) :
    (extract_video_id (clean_url reqUrl) = none →
        (create_book env reqUrl fs).response
            = Except.error { status := 400, detail := "Invalid YouTube URL" }
        ∧ (create_book env reqUrl fs).fs = fs)
    ∧ (∀ vid, extract_video_id (clean_url reqUrl) = some vid →
        ∃ r, (create_book env reqUrl fs).response = Except.ok r
          ∧ r.filename = "summary_" ++ vid ++ ".epub"
          ∧ r.mediaType = "application/epub+zip") := by
  constructor
  · intro h
    constructor <;> simp only [create_book, h]
  · intro vid h
    exact ⟨_, create_book_ok h, rfl, rfl⟩

/-- Witness for C4: the malformed input "not a url" yields the 400 error
with untouched state, and the canonical URL yields the named epub. -/
theorem create_book_url_validation_witness :
    ((create_book env0 "not a url" fs0).response
        = Except.error { status := 400, detail := "Invalid YouTube URL" }
      ∧ (create_book env0 "not a url" fs0).fs = fs0)
    ∧ ∃ r, (create_book env0 goodUrl fs0).response = Except.ok r
        ∧ r.filename = "summary_" ++ "dQw4w9WgXcQ" ++ ".epub"
        ∧ r.mediaType = "application/epub+zip" :=
  ⟨(create_book_url_validation env0 "not a url" fs0).1 (by decide),
   (create_book_url_validation env0 goodUrl fs0).2 "dQw4w9WgXcQ" (by decide)⟩

/-- Claim C5: the document assembler re-normalizes both title and
manuscript with the NFC normalizer before embedding them — the assembled
book depends only on `nfc title` and `md (nfc manuscript)` — so feeding a
decomposed-form title through the title resolver and the assembler yields
byte-identical output to feeding the already-composed form, whenever the
normalizer identifies the two forms (the defining property of NFC). -/
theorem epub_nfc_roundtrip (nfc md : String → String)
    (td tc mdk mck vid : String)
    (ht : nfc td = nfc tc) (hm : nfc mdk = nfc mck) :
    (∀ t m v, epub_book nfc md t m v
        = { identifier := v, title := nfc t, language := "ko",
            author := "Tublisher AI", chapterTitle := "Summary",
            chapterFileName := "chap_01.xhtml", chapterLang := "ko",
            chapterContent := chapter_html (nfc t) (md (nfc m)) v })
    ∧ epub_book nfc md (get_video_title nfc (Except.ok (some td))) mdk vid
        = epub_book nfc md (get_video_title nfc (Except.ok (some tc))) mck vid := by
  constructor
  · intro t m v
    rfl
  · show epub_book nfc md (nfc td) mdk vid = epub_book nfc md (nfc tc) mck vid
    simp only [epub_book]
    rw [congrArg nfc ht, hm]

/-- Witness for C5: with the concrete Hangul NFC normalizer, the decomposed
jamo spelling of 한 and its composed syllable produce byte-identical books. -/
theorem epub_nfc_roundtrip_witness :
    epub_book hangulNFC (fun s => s)
        (get_video_title hangulNFC (Except.ok (some titleDecomposed))) titleDecomposed "vid"
      = epub_book hangulNFC (fun s => s)
        (get_video_title hangulNFC (Except.ok (some titleComposed))) titleComposed "vid" :=
  (epub_nfc_roundtrip hangulNFC (fun s => s) titleDecomposed titleComposed
      titleDecomposed titleComposed "vid" (by decide) (by decide)).2

theorem manuscript_branch_counters (env : Env) (url : String) (fs : FS) :
    (pyTruthyStr (fetch_transcript env.transcript) = true →
      (manuscript_branch env url fs).2.downloads = fs.downloads
      ∧ (manuscript_branch env url fs).2.uploads = fs.uploads
      ∧ (manuscript_branch env url fs).2.generates = fs.generates)
    ∧ (pyTruthyStr (fetch_transcript env.transcript) = false →
      (manuscript_branch env url fs).2.deepseekCalls = fs.deepseekCalls) := by
  constructor
  · intro hb
    unfold manuscript_branch
    simp only [hb, eq_self_iff_true, if_true]
    split
    · exact ⟨rfl, rfl, rfl⟩
    · split <;> exact ⟨rfl, rfl, rfl⟩
  · intro hb
    unfold manuscript_branch
    simp only [hb, Bool.false_eq_true, if_false]
    split
    · rfl
    · exact (audio_branch_state env url fs).2

/-- Counterexample to C2 as stated: in `envEmptyTranscript` the caption
fetch succeeds (with zero fragments, so the joined text is the empty
string), yet the text-backend path is not taken — the request lands in the
audio case's configuration placeholder and the final state equals the
initial one, so the DeepSeek backend was never called. -/
theorem fetch_success_without_text_path :
    envEmptyTranscript.transcript = Except.ok ([] : List String)
    ∧ (manuscript_branch envEmptyTranscript (clean_url goodUrl) fs0).1
        = "## 설정 오류\n\n자막이 없는 영상은 Gemini가 필요합니다. GOOGLE_API_KEY를 설정해주세요."
    ∧ (manuscript_branch envEmptyTranscript (clean_url goodUrl) fs0).2 = fs0 :=
  ⟨rfl, rfl, rfl⟩

/-- Claim C2 amended: at most one backend path is used per request — the
DeepSeek call counter and the audio-side counters never both advance; the
text path is taken exactly when caption fetching succeeds with a non-empty
joined transcript (Python truthiness, not mere fetch success); and a
failure on one path never reaches the other backend. -/
theorem manuscript_paths_exclusive (env : Env) (url : String) (fs : FS) :
    ((manuscript_branch env url fs).2.deepseekCalls = fs.deepseekCalls
      ∨ ((manuscript_branch env url fs).2.downloads = fs.downloads
         ∧ (manuscript_branch env url fs).2.uploads = fs.uploads
         ∧ (manuscript_branch env url fs).2.generates = fs.generates))
    ∧ (pyTruthyStr (fetch_transcript env.transcript) = true →
        (manuscript_branch env url fs).2.downloads = fs.downloads
        ∧ (manuscript_branch env url fs).2.uploads = fs.uploads
        ∧ (manuscript_branch env url fs).2.generates = fs.generates)
    ∧ (pyTruthyStr (fetch_transcript env.transcript) = false →
        (manuscript_branch env url fs).2.deepseekCalls = fs.deepseekCalls) := by
  have h := manuscript_branch_counters env url fs
  refine ⟨?_, h.1, h.2⟩
  cases hb : pyTruthyStr (fetch_transcript env.transcript) with
  | true => exact Or.inr (h.1 hb)
  | false => exact Or.inl (h.2 hb)

/-- Witness for C2 amended: with captions present the audio-side counters
stay untouched, and with no usable transcript the DeepSeek counter stays
untouched. -/
theorem manuscript_paths_exclusive_witness :
    ((manuscript_branch env0 (clean_url goodUrl) fs0).2.downloads = fs0.downloads
      ∧ (manuscript_branch env0 (clean_url goodUrl) fs0).2.uploads = fs0.uploads
      ∧ (manuscript_branch env0 (clean_url goodUrl) fs0).2.generates = fs0.generates)
    ∧ (manuscript_branch envNoFfmpeg (clean_url goodUrl) fs0).2.deepseekCalls
        = fs0.deepseekCalls :=
  ⟨(manuscript_paths_exclusive env0 (clean_url goodUrl) fs0).2.1 rfl,
   (manuscript_paths_exclusive envNoFfmpeg (clean_url goodUrl) fs0).2.2 rfl⟩

/-- Counterexample to C10 as stated: in `envEmptyFragment` the caption
fetch succeeds with one empty fragment, so the concatenation is the empty
string; the code's truthiness test then selects the audio fallback (here it
fails on the unresolved ffmpeg), and the text backend is never invoked —
presence of a successful fetch is not the sole routing signal. -/
theorem fallback_on_empty_transcript :
    envEmptyFragment.transcript = Except.ok [""]
    ∧ (manuscript_branch envEmptyFragment (clean_url goodUrl) fs0).1
        = "## 처리 실패\n\n오디오 분석 중 오류: " ++ ffmpegMissingMsg
    ∧ (manuscript_branch envEmptyFragment (clean_url goodUrl) fs0).2.deepseekCalls = 0 :=
  ⟨rfl, rfl, rfl⟩

/-- Claim C10 amended: the fallback trigger is "no usable transcript": the
text-backend path is taken exactly when caption fetching succeeds and the
joined transcript is non-empty; a successful fetch whose concatenation is
the empty string, like a failed fetch, selects the audio branch and never
invokes the text backend. -/
theorem fallback_trigger (env : Env) (url : String) (fs : FS) :
    (∀ l, env.transcript = Except.ok l →
        (String.intercalate " " l).isEmpty = false →
        ((manuscript_branch env url fs).2.downloads = fs.downloads
          ∧ (manuscript_branch env url fs).2.uploads = fs.uploads
          ∧ (manuscript_branch env url fs).2.generates = fs.generates)
        ∧ (pyTruthyStr env.deepseekKey = true →
            (manuscript_branch env url fs).2.deepseekCalls = fs.deepseekCalls + 1))
    ∧ (∀ l, env.transcript = Except.ok l →
        (String.intercalate " " l).isEmpty = true →
        (manuscript_branch env url fs).2.deepseekCalls = fs.deepseekCalls)
    ∧ (env.transcript = Except.error () →
        (manuscript_branch env url fs).2.deepseekCalls = fs.deepseekCalls) := by
  refine ⟨?_, ?_, ?_⟩
  · intro l htr hne
    have hb : pyTruthyStr (fetch_transcript env.transcript) = true := by
      simp [fetch_transcript, htr, pyTruthyStr, hne]
    refine ⟨(manuscript_branch_counters env url fs).1 hb, ?_⟩
    intro hkey
    cases hc : env.deepseekCall system_prompt
        ("다음 자막을 책으로 변환해줘:\n\n" ++ (String.intercalate " " l).take 15000) with
    | ok content =>
        rw [manuscript_branch_text_ok htr hne hkey hc]
    | error e =>
        rw [manuscript_branch_text_error htr hne hkey hc]
  · intro l htr hemp
    have hb : pyTruthyStr (fetch_transcript env.transcript) = false := by
      simp [fetch_transcript, htr, pyTruthyStr, hemp]
    exact (manuscript_branch_counters env url fs).2 hb
  · intro htr
    have hb : pyTruthyStr (fetch_transcript env.transcript) = false := by
      simp [fetch_transcript, htr, pyTruthyStr]
    exact (manuscript_branch_counters env url fs).2 hb

/-- Witness for C10 amended: a non-empty transcript drives exactly one
DeepSeek call; a successful but empty fetch drives none. -/
theorem fallback_trigger_witness :
    (manuscript_branch env0 (clean_url goodUrl) fs0).2.deepseekCalls = fs0.deepseekCalls + 1
    ∧ (manuscript_branch envEmptyTranscript (clean_url goodUrl) fs0).2.deepseekCalls
        = fs0.deepseekCalls :=
  ⟨((fallback_trigger env0 (clean_url goodUrl) fs0).1 ["hello", "world"] rfl (by decide)).2 rfl,
   (fallback_trigger envEmptyTranscript (clean_url goodUrl) fs0).2.1 [] rfl (by decide)⟩

theorem audio_try_delete_error {env : Env} {url : String} {fs : FS}
    {p handle txt e : String}
    (hdl : (download_audio env url fs).1 = Except.ok p)
    (hup : env.geminiUpload p = Except.ok handle)
    (hgen : env.geminiGenerate
        (system_prompt ++ "\n이 오디오 파일을 듣고 위 지침에 따라 책 원고를 작성해줘.") handle
      = Except.ok txt)
    (hdel : env.geminiDelete handle = Except.error e) :
    (audio_try env url fs).1 = "## 처리 실패\n\n오디오 분석 중 오류: " ++ e := by
  unfold audio_try
  split
  next e' fs1 hd =>
      rw [hd] at hdl
      simp at hdl
  next q fs1 hd =>
      have hq : q = p := by rw [hd] at hdl; simpa using hdl
      rw [hq, hup]
      dsimp only
      rw [hgen]
      dsimp only
      rw [hdel]

/-- Counterexample to C9 as stated: in `envDeleteFails` the audio path's
generation succeeds with "audio manuscript", but the failing remote delete
is caught by the same handler as every other audio-stage error and replaces
the successfully generated manuscript with the error placeholder — the
deletion failure is surfaced, not merely logged. -/
theorem delete_failure_replaces_manuscript :
    envDeleteFails.geminiGenerate
        (system_prompt ++ "\n이 오디오 파일을 듣고 위 지침에 따라 책 원고를 작성해줘.") "files/abc"
      = Except.ok "audio manuscript"
    ∧ (manuscript_branch envDeleteFails (clean_url goodUrl) fs0).1
        = "## 처리 실패\n\n오디오 분석 중 오류: permission denied"
    ∧ (manuscript_branch envDeleteFails (clean_url goodUrl) fs0).1 ≠ "audio manuscript" :=
  ⟨rfl, rfl, by decide⟩

/-- Claim C9 amended: on the audio path the remote delete is issued only
after the generated text is retrieved, but it sits inside the same guarded
scope as the generation: a deletion failure is caught by that handler and
replaces the generated manuscript with the audio-error placeholder (it is
surfaced, not ignored); the request still completes with a document and the
local audio file is still cleaned up. -/
theorem remote_delete_failure_handled (env : Env) (reqUrl : String) (fs : FS)
    (vid p handle txt e : String)
    (hvid : extract_video_id (clean_url reqUrl) = some vid)
    (hft : pyTruthyStr (fetch_transcript env.transcript) = false)
    (hgoog : pyTruthyStr env.googleKey = true)
    (hdl : (download_audio env (clean_url reqUrl) fs).1 = Except.ok p)
    (hup : env.geminiUpload p = Except.ok handle)
    (hgen : env.geminiGenerate
        (system_prompt ++ "\n이 오디오 파일을 듣고 위 지침에 따라 책 원고를 작성해줘.") handle
      = Except.ok txt)
    (hdel : env.geminiDelete handle = Except.error e) :
    (manuscript_branch env (clean_url reqUrl) fs).1
        = "## 처리 실패\n\n오디오 분석 중 오류: " ++ e
    ∧ (create_book env reqUrl fs).response = Except.ok
        { path := env.tempName, filename := "summary_" ++ vid ++ ".epub",
          mediaType := "application/epub+zip" }
    ∧ (∀ q, q ∉ fs.files → q ∉ (manuscript_branch env (clean_url reqUrl) fs).2.files) := by
  have hfb : manuscript_branch env (clean_url reqUrl) fs
      = audio_branch env (clean_url reqUrl) fs := by
    rw [manuscript_branch_fallback hft, hgoog]
    simp
  refine ⟨?_, create_book_ok hvid, ?_⟩
  · rw [hfb, audio_branch_content]
    exact audio_try_delete_error hdl hup hgen hdel
  · intro q hq
    rw [hfb]
    exact (audio_branch_state env (clean_url reqUrl) fs).1 q hq

/-- Witness for C9 amended: the concrete failing delete yields the
placeholder, a completed response, and no leftover audio file. -/
theorem remote_delete_failure_handled_witness :
    (manuscript_branch envDeleteFails (clean_url goodUrl) fs0).1
        = "## 처리 실패\n\n오디오 분석 중 오류: " ++ "permission denied"
    ∧ (create_book envDeleteFails goodUrl fs0).response = Except.ok
        { path := envDeleteFails.tempName,
          filename := "summary_" ++ "dQw4w9WgXcQ" ++ ".epub",
          mediaType := "application/epub+zip" }
    ∧ (∀ q, q ∉ fs0.files →
        q ∉ (manuscript_branch envDeleteFails (clean_url goodUrl) fs0).2.files) :=
  remote_delete_failure_handled envDeleteFails goodUrl fs0 "dQw4w9WgXcQ"
    "/tmp/vid01234567.mp3" "files/abc" "audio manuscript" "permission denied"
    (by decide) rfl rfl rfl rfl rfl rfl
